import Mathlib

/-!
Shallow embedding of the `monad_argparse` combinator engine.

Layer 1 embeds `src/monad_argparse/parser.py`: a parser wraps a pure
function from a token list to a list of `(value, remainder)` outcomes
(the empty list is failure).  Layer 2 embeds the
`src/monad_argparse/parser/result.py` merge algebra.  Layer 3 models the
single-outcome parser of `monad_argparse.parser.parser` (absent from the
source tree) from the spec, and translates the `nonpositional` algorithm
of `src/monad_argparse/parser/nonpositional.py` over it.
-/

namespace MonadArgparse

/-- Embedding of `class Parser` from `src/monad_argparse/parser.py`:
it wraps a function `StrList -> List[Tuple[A, StrList]]`. -/
structure Parser (α : Type) where
  f : List String → List (α × List String)

/-- `Parser.parse`: apply the wrapped function (`return self.f(cs)`). -/
def Parser.parse (p : Parser α) (cs : List String) : List (α × List String) :=
  p.f cs

/-- `Parser.__add__`: concatenate the outcome lists of both parsers on the
same input (`self.parse(cs) + p.parse(cs)`). -/
def Parser.add (p q : Parser α) : Parser α :=
  ⟨fun cs => p.parse cs ++ q.parse cs⟩

/-- `Parser.__or__`: run `self + p` and keep only the first outcome
(`[x[0]] if x else []`). -/
def Parser.orElse (p q : Parser α) : Parser α :=
  ⟨fun cs =>
    match (p.add q).parse cs with
    | [] => []
    | x :: _ => [x]⟩

/-- `Parser.bind`: for each outcome `(a, _cs)` of `p`, run `f a` on the
remainder `_cs` and concatenate all outcome lists. -/
def Parser.bind (p : Parser α) (g : α → Parser β) : Parser β :=
  ⟨fun cs => (p.parse cs).flatMap (fun r => (g r.1).parse r.2)⟩

/-- `Parser.ret`: succeed with `x`, consuming nothing. -/
def Parser.ret (x : α) : Parser α :=
  ⟨fun cs => [(x, cs)]⟩

/-- `Parser.zero`: always fail (the empty outcome list). -/
def Parser.zero : Parser α :=
  ⟨fun _ => []⟩

/-- `Parser.parse_args`: destructure `(a, _), *_ = parsed` and return `a`.
`none` models the uncaught `ValueError` the destructuring raises when the
outcome list is empty (the recovering `try/except` is commented out in the
source). -/
def Parser.parseArgs (p : Parser α) (args : List String) : Option α :=
  match p.parse args with
  | [] => none
  | (a, _) :: _ => some a

/-- `class Item`: consume one token unconditionally; fail on empty input
(the `except ValueError` branch). -/
def Item : Parser String :=
  ⟨fun cs =>
    match cs with
    | [] => []
    | c :: rest => [(c, rest)]⟩

/-- `class Sat`: consume one token with `Item`, succeed with it when the
predicate holds, otherwise fail with `zero`. -/
def Sat (pred : String → Bool) : Parser String :=
  Item.bind (fun c => if pred c then Parser.ret c else Parser.zero)

/-- Python renders `f"-{short}"` with `short = None` as the literal string
`"-None"`; this mirrors that f-string interpolation. -/
def shortString : Option String → String
  | some s => s
  | none => "None"

/-- The `predicate` closure of `Flag`/`Option`:
`x in [f"-{short}", f"--{long}"]`. -/
def flagStrings (long : String) (short : Option String) (x : String) : Bool :=
  x = "-" ++ shortString short || x = "--" ++ long

/-- `class Flag`: match a token satisfying `predicate`, then bind
`(dest or long, value)` (the do-generator `yield Sat(predicate); yield
self.ret(((dest or long), value))`). -/
def Flag (long : String) (short : Option String) (dest : Option String)
    (value : Bool) : Parser (String × Bool) :=
  (Sat (flagStrings long short)).bind (fun _ => Parser.ret (dest.getD long, value))

/-- `class Option` (named `OptionP` here because `Option` is taken by Lean):
match a token satisfying `predicate`, consume the next token with `Item`,
convert it, and bind `(dest or long, value)`.  The converter returns
`Option β`; `none` models `convert` raising, in which case the
`except Exception` branch yields `self.zero()`.  The Python `convert=None`
case is the identity converter `fun s => some s`. -/
def OptionP (long : String) (short : Option String)
    (convert : String → Option β) (dest : Option String) : Parser (String × β) :=
  (Sat (flagStrings long short)).bind fun _ =>
    Item.bind fun c2 =>
      match convert c2 with
      | some v => Parser.ret (dest.getD long, v)
      | none => Parser.zero

/-- `class Argument`: consume one token with `Item` and bind it to `dest`. -/
def Argument (dest : String) : Parser (String × String) :=
  Item.bind fun c => Parser.ret (dest, c)

/-- The best outcome of running a parser: the first element of the outcome
list, or `none` on failure.  The spec's data model keeps a single `Outcome`
per run, so outcome equivalence of two parsers is agreement of this value
on every input. -/
def bestOutcome (p : Parser α) (cs : List String) : Option (α × List String) :=
  (p.parse cs).head?

/-- Executable model of an integer conversion function such as `int`:
succeeds on nonempty all-digit strings, fails (models a raised
`ValueError`) otherwise. -/
def convertInt (s : String) : Option Nat :=
  if s.data ≠ [] && s.data.all Char.isDigit then
    some (s.data.foldl (fun acc c => acc * 10 + (c.toNat - 48)) 0)
  else none

/-- Embedding of `Result` from `src/monad_argparse/parser/result.py`: the
field `get : B | Exception` is modelled as a sum, `ok` for the
non-Exception case and `err` for the Exception case.  The error type is a
parameter because `__add__` never inspects the error value. -/
inductive Result (ε α : Type) where
  | err (e : ε)
  | ok (a : α)
deriving DecidableEq

/-- `Result.__add__`: if `self.get` is not an Exception, return `self`;
else if `other.get` is not an Exception, return `other`; else return
`self`. -/
def Result.add : Result ε α → Result ε α → Result ε α
  | .ok a, _ => .ok a
  | .err _, .ok b => .ok b
  | .err e, .err _ => .err e

/-- `Result.bind` from `src/monad_argparse/parser/result.py`: propagate an
Exception unchanged, otherwise apply `f` to the wrapped value. -/
def Result.bind : Result ε α → (α → Result ε β) → Result ε β
  | .err e, _ => .err e
  | .ok a, g => g a

/-- Outcome of the fuel-indexed evaluation of the `many`/`many1`
recursion: `fuelOut` means the recursion did not complete within the fuel,
`assertFail` models the `AssertionError` raised by the
`assert isinstance(a, tuple)` in `many1` propagating out of the parse, and
`toks` is an ordinary outcome list. -/
inductive MRes (α : Type) where
  | fuelOut
  | assertFail
  | toks (l : List (List α × List String))
deriving DecidableEq

/-- The `bind` loop inside `many1`: iterate the outcomes of one
application of the parser in order; for each bound value run
`assert isinstance(a, tuple)` (`isTuple` models the runtime check, and a
failure aborts the whole parse), then run `many` (the `next` argument) on
the remainder and prepend the value.  The second assert,
`isinstance(aa, list)`, always passes: every value `many` produces is
built by `ret([])` or `ret([a] + aa)` and so is a list. -/
def manyGo (isTuple : α → Bool) (next : List String → MRes α) :
    List (α × List String) → MRes α
  | [] => .toks []
  | r :: rs =>
    if isTuple r.1 then
      match next r.2 with
      | .fuelOut => .fuelOut
      | .assertFail => .assertFail
      | .toks l =>
        match manyGo isTuple next rs with
        | .fuelOut => .fuelOut
        | .assertFail => .assertFail
        | .toks ls => .toks (l.map (fun s => (r.1 :: s.1, s.2)) ++ ls)
    else .assertFail

/-- Fuel-indexed evaluation of `Parser.many` from
`src/monad_argparse/parser.py` (`many = many1 | ret []`): keep the first
outcome of `many1`'s outcome list followed by `ret []`'s, and propagate an
`AssertionError` raised inside `many1`.  The Python recursion has no
termination measure, so one unit of fuel pays for one unfolding of
`many`. -/
def manyF (isTuple : α → Bool) : Nat → Parser α → List String → MRes α
  | 0, _, _ => .fuelOut
  | Nat.succ fuel, p, cs =>
    match manyGo isTuple (fun cs2 => manyF isTuple fuel p cs2) (p.parse cs) with
    | .fuelOut => .fuelOut
    | .assertFail => .assertFail
    | .toks [] => .toks [([], cs)]
    | .toks (x :: _) => .toks [x]

/-- Fuel-indexed evaluation of `Parser.many1`: one application of `p`
followed, outcome by outcome, by the isinstance assert and `many` with the
given fuel on the remainder. -/
def many1F (isTuple : α → Bool) (fuel : Nat) (p : Parser α)
    (cs : List String) : MRes α :=
  manyGo isTuple (fun cs2 => manyF isTuple fuel p cs2) (p.parse cs)

/-- A parser consumes input when every outcome's remainder is strictly
shorter than the input. -/
def Consumes (p : Parser α) : Prop :=
  ∀ cs r, r ∈ p.parse cs → r.2.length < cs.length

/-- The recursion behind `many(p).parse(cs)` never completes, whatever the
fuel: this is how non-termination of the Python recursion is expressed in
the fuel-indexed embedding. -/
def manyDiverges (isTuple : α → Bool) (p : Parser α) (cs : List String) : Prop :=
  ∀ fuel, manyF isTuple fuel p cs = MRes.fuelOut

/-- The parse of `many(p)` raises `AssertionError` (for every positive
fuel, so before the fuel can run out): the isinstance assert in `many1`
fails on a bound value that is not a tuple. -/
def manyCrashes (isTuple : α → Bool) (p : Parser α) (cs : List String) : Prop :=
  ∀ fuel, 0 < fuel → manyF isTuple fuel p cs = MRes.assertFail

lemma manyF_ne_toks_nil (isTuple : α → Bool) (fuel : Nat) (p : Parser α)
    (cs : List String) : manyF isTuple fuel p cs ≠ MRes.toks [] := by
  cases fuel with
  | zero => simp [manyF]
  | succ fuel =>
    simp only [manyF]
    split <;> simp

lemma manyGo_toks (isTuple : α → Bool) (next : List String → MRes α)
    (rs : List (α × List String))
    (h1 : ∀ r ∈ rs, isTuple r.1 = true)
    (h2 : ∀ r ∈ rs, ∃ l, next r.2 = MRes.toks l) :
    ∃ L, manyGo isTuple next rs = MRes.toks L := by
  induction rs with
  | nil => exact ⟨[], rfl⟩
  | cons r rs ih =>
    obtain ⟨l, hl⟩ := h2 r (List.mem_cons_self r rs)
    obtain ⟨L, hL⟩ := ih (fun x hx => h1 x (List.mem_cons_of_mem _ hx))
      (fun x hx => h2 x (List.mem_cons_of_mem _ hx))
    refine ⟨l.map (fun s => (r.1 :: s.1, s.2)) ++ L, ?_⟩
    simp [manyGo, h1 r (List.mem_cons_self r rs), hl, hL]

lemma manyF_total (isTuple : α → Bool) (p : Parser α) (hc : Consumes p)
    (htup : ∀ cs r, r ∈ p.parse cs → isTuple r.1 = true) :
    ∀ fuel cs, cs.length < fuel →
      ∃ x xs, manyF isTuple fuel p cs = MRes.toks (x :: xs) := by
  intro fuel
  induction fuel with
  | zero => exact fun cs h => absurd h (Nat.not_lt_zero _)
  | succ fuel ih =>
    intro cs h
    obtain ⟨L, hL⟩ := manyGo_toks isTuple (fun cs2 => manyF isTuple fuel p cs2)
      (p.parse cs) (fun r hr => htup cs r hr)
      (fun r hr => by
        have hlen : r.2.length < fuel :=
          lt_of_lt_of_le (hc cs r hr) (Nat.lt_succ_iff.mp h)
        obtain ⟨x, xs, hx⟩ := ih r.2 hlen
        exact ⟨x :: xs, hx⟩)
    cases L with
    | nil => exact ⟨([], cs), [], by simp [manyF, hL]⟩
    | cons x xs => exact ⟨x, [], by simp [manyF, hL]⟩

lemma manyF_zero_matches (isTuple : α → Bool) (fuel : Nat) (p : Parser α)
    (cs : List String) (h : p.parse cs = []) :
    manyF isTuple (Nat.succ fuel) p cs = MRes.toks [([], cs)] := by
  simp [manyF, h, manyGo]

lemma many1F_toks_nil_iff (isTuple : α → Bool) (fuel : Nat) (p : Parser α)
    (cs : List String) :
    many1F isTuple fuel p cs = MRes.toks [] ↔ p.parse cs = [] := by
  constructor
  · intro h
    cases hp : p.parse cs with
    | nil => rfl
    | cons r t =>
      exfalso
      rw [many1F, hp] at h
      unfold manyGo at h
      split at h
      · split at h
        · exact MRes.noConfusion h
        · exact MRes.noConfusion h
        · rename_i l hl
          split at h
          · exact MRes.noConfusion h
          · exact MRes.noConfusion h
          · rw [MRes.toks.injEq] at h
            obtain ⟨hl0, _⟩ := List.append_eq_nil.mp h
            rw [List.map_eq_nil_iff] at hl0
            subst hl0
            exact manyF_ne_toks_nil isTuple fuel p r.2 hl
      · exact MRes.noConfusion h
  · intro h
    simp [many1F, h, manyGo]

lemma flag_consumes (long : String) (short dest : Option String) (v : Bool) :
    Consumes (Flag long short dest v) := by
  intro cs r hr
  cases cs with
  | nil =>
    simp [Flag, Sat, Item, Parser.bind, Parser.parse] at hr
  | cons c rest =>
    simp only [Flag, Sat, Item, Parser.bind, Parser.parse, Parser.ret,
      Parser.zero, List.flatMap_cons, List.flatMap_nil] at hr
    split at hr <;> simp_all

/-- C1 (amended): when the parser yields at least one outcome,
`parse_args` returns the first outcome's value; when the parser fails
(yields no outcomes), the destructuring `(a, _), *_ = parsed` raises an
uncaught `ValueError` (modelled as `none`): no rendered failure outcome
is returned. -/
theorem parseArgs_crashes_on_failure (p : Parser α) (cs : List String)
    (h : p.parse cs = []) : p.parseArgs cs = none := by
  simp [Parser.parseArgs, h]

/-- C1 witness: a `Flag` fails on a mismatched token, and `parse_args`
then yields no value (the uncaught `ValueError`). -/
theorem parseArgs_crashes_on_failure_witness :
    (Flag "x" none none true).parse ["y"] = [] ∧
    (Flag "x" none none true).parseArgs ["y"] = none :=
  ⟨by decide, parseArgs_crashes_on_failure _ _ (by decide)⟩

/-- C1 counterexample: running the top-level entry point on a malformed
input does not return a rendered failure outcome; the outcome list is
empty and the destructuring in `parse_args` raises (modelled as `none`). -/
theorem parseArgs_counterexample :
    (Flag "verbose" none none true).parseArgs ["--debug"] = none := by
  decide

/-- C3: when the left parser succeeds (and the right would too), the
alternation keeps exactly the left parser's first outcome; in particular
`ret(1) | ret(2)` applied to any token list yields `1` through
`parse_args`. -/
theorem orElse_first_success_wins (p q : Parser α) (cs : List String)
    (a : α) (r : List String) (t : List (α × List String))
    (hp : p.parse cs = (a, r) :: t) (_hq : q.parse cs ≠ []) :
    (p.orElse q).parse cs = [(a, r)] ∧
    ((Parser.ret (1 : Nat)).orElse (Parser.ret 2)).parseArgs cs = some 1 := by
  constructor
  · simp only [Parser.parse] at hp
    simp [Parser.orElse, Parser.add, Parser.parse, hp]
  · rfl

/-- C3 witness: both `ret(1)` and `ret(2)` succeed on `["a"]`, and the
alternation yields the left value `1`. -/
theorem orElse_first_success_wins_witness :
    (Parser.ret (1 : Nat)).parse ["a"] = (1, ["a"]) :: [] ∧
    (Parser.ret (2 : Nat)).parse ["a"] ≠ [] ∧
    (((Parser.ret (1 : Nat)).orElse (Parser.ret 2)).parse ["a"] = [(1, ["a"])] ∧
      ((Parser.ret (1 : Nat)).orElse (Parser.ret 2)).parseArgs ["a"] = some 1) :=
  ⟨rfl, by decide, orElse_first_success_wins _ _ _ _ _ _ rfl (by decide)⟩

/-- C4: an alternation never yields more than one outcome: `__or__` keeps
`[x[0]]` of the combined outcome list, so no ambiguity survives past an
alternation choice point. -/
theorem orElse_at_most_one_outcome (p q : Parser α) (cs : List String) :
    ((p.orElse q).parse cs).length ≤ 1 := by
  simp only [Parser.orElse, Parser.parse]
  cases (p.add q).f cs <;> simp [Parser.parse]

/-- C6: alternation identities up to outcome equivalence (agreement of the
best outcome on every input): `p | zero()` and `zero() | p` both parse
every input to the same best outcome as `p`. -/
theorem orElse_zero_identity (p : Parser α) (cs : List String) :
    bestOutcome (p.orElse Parser.zero) cs = bestOutcome p cs ∧
    bestOutcome (Parser.zero.orElse p) cs = bestOutcome p cs := by
  obtain ⟨f⟩ := p
  constructor <;>
    · simp only [bestOutcome, Parser.orElse, Parser.add, Parser.parse, Parser.zero]
      cases f cs <;> simp

/-- C8: evaluation of the code at the failing input: `Flag("verbose")`
with no short name accepts the literal token `"-None"` (because the
predicate compares against the f-string of `short = None`) and binds
`verbose` to `true`, exactly as it does on the intended spelling
`"--verbose"`. -/
theorem flag_accepts_dash_none :
    (Flag "verbose" none none true).parse ["-None"] = [(("verbose", true), [])] ∧
    (Flag "verbose" none none true).parse ["--verbose"] = [(("verbose", true), [])] := by
  constructor <;> decide

/-- C9 (amended): when the flag token matches and the converter fails on
the following value token, the `Option` parser returns the empty outcome
list: an ordinary failure, with the converter's exception caught (never a
crash), but carrying no `ConversionFailed` payload. -/
theorem option_conversion_failure_is_plain_failure (long : String)
    (short : Option String) (dest : Option String) (cv : String → Option β)
    (tok v : String) (rest : List String)
    (hmatch : flagStrings long short tok = true) (hcv : cv v = none) :
    (OptionP long short cv dest).parse (tok :: v :: rest) = [] := by
  simp [OptionP, Sat, Item, Parser.bind, Parser.parse, Parser.ret, Parser.zero,
    hmatch, hcv]

/-- C9 witness: `Option("num", short="n", convert=int)` on
`["-n", "abc", "rest"]` fails in the converter and yields the empty
outcome list. -/
theorem option_conversion_failure_witness :
    flagStrings "num" (some "n") "-n" = true ∧ convertInt "abc" = none ∧
    (OptionP "num" (some "n") convertInt none).parse ["-n", "abc", "rest"] = [] :=
  ⟨by decide, by decide,
    option_conversion_failure_is_plain_failure _ _ _ _ _ _ _ (by decide) (by decide)⟩

/-- C9 counterexample: the failure produced by a conversion error is the
empty outcome list, identical to what `zero()` produces on the same input;
it carries no `ConversionFailed` error with a name, raw value, or
reason. -/
theorem option_conversion_failure_counterexample :
    (OptionP "num" (some "n") convertInt none).parse ["-n", "hello"] = [] ∧
    (Parser.zero : Parser (String × Nat)).parse ["-n", "hello"] = [] := by
  constructor <;> decide

/-- C10: whenever the parser yields at least one outcome, `parse_args`
returns the first outcome's value regardless of that outcome's remainder:
full consumption is not required and any unconsumed tail is silently
discarded. -/
theorem parseArgs_ignores_remainder (p : Parser α) (cs : List String)
    (a : α) (r : List String) (t : List (α × List String))
    (h : p.parse cs = (a, r) :: t) :
    p.parseArgs cs = some a := by
  simp only [Parser.parse] at h
  simp [Parser.parseArgs, Parser.parse, h]

/-- C10 witness: `Argument("x")` on `["foo", "bar"]` leaves the nonempty
remainder `["bar"]`, yet `parse_args` returns the binding built from
`"foo"` and drops `"bar"`. -/
theorem parseArgs_ignores_remainder_witness :
    (Argument "x").parse ["foo", "bar"] = (("x", "foo"), ["bar"]) :: [] ∧
    ["bar"] ≠ ([] : List String) ∧
    (Argument "x").parseArgs ["foo", "bar"] = some ("x", "foo") :=
  ⟨by decide, by decide,
    parseArgs_ignores_remainder (Argument "x") ["foo", "bar"] ("x", "foo")
      ["bar"] [] (by decide)⟩

/-- C2 (amended): merging outcomes with `Result.__add__` is associative,
but when both sides are failures the left failure is kept unchanged: the
merged failure depends on the order of the alternatives and is the
leftmost error, not the most specific one. -/
theorem result_add_assoc_and_left_failure (ε α : Type) :
    (∀ a b c : Result ε α, (a.add b).add c = a.add (b.add c)) ∧
    (∀ e1 e2 : ε, (Result.err e1 : Result ε α).add (Result.err e2) =
      Result.err e1) := by
  constructor
  · intro a b c
    cases a <;> cases b <;> cases c <;> rfl
  · intro e1 e2
    rfl

/-- C2 counterexample: merging a generic missing-argument failure with a
literal-token-mismatch failure keeps the generic one when it is on the
left, and swapping the operands changes the merged failure, so the failure
message is neither order-independent nor biased toward the most specific
expectation. -/
theorem result_add_order_dependent_counterexample :
    ((Result.err "missing required -x" : Result String Nat).add
        (Result.err "expected --debug, got --verbose") =
      Result.err "missing required -x") ∧
    ((Result.err "expected --debug, got --verbose" : Result String Nat).add
        (Result.err "missing required -x") ≠
      (Result.err "missing required -x" : Result String Nat).add
        (Result.err "expected --debug, got --verbose")) := by
  constructor
  · rfl
  · decide

/-- C5 (amended): for a parser that consumes input on every success,
binds only tuple values (so the `assert isinstance(a, tuple)` of `many1`
passes), and enough fuel, `many` succeeds with a nonempty outcome list,
yields the empty binding sequence when the parser matches zero times, and
`many1` fails exactly when the first application of the parser fails.
Both side conditions are necessary: a non-tuple-valued parser makes
`many1` raise `AssertionError`, and a tuple-valued non-consuming parser
makes the recursion diverge (see the counterexample). -/
theorem many_total_for_consuming (isTuple : α → Bool) (p : Parser α)
    (fuel : Nat) (cs : List String) (hc : Consumes p)
    (htup : ∀ cs2 r, r ∈ p.parse cs2 → isTuple r.1 = true)
    (hf : cs.length < fuel) :
    (∃ x xs, manyF isTuple fuel p cs = MRes.toks (x :: xs)) ∧
    (p.parse cs = [] → manyF isTuple fuel p cs = MRes.toks [([], cs)]) ∧
    (many1F isTuple fuel p cs = MRes.toks [] ↔ p.parse cs = []) := by
  refine ⟨manyF_total isTuple p hc htup fuel cs hf, ?_,
    many1F_toks_nil_iff isTuple fuel p cs⟩
  intro h
  cases fuel with
  | zero => exact absurd hf (Nat.not_lt_zero _)
  | succ fuel => exact manyF_zero_matches isTuple fuel p cs h

/-- C5 witness: `Flag("v")` consumes a token on every success and binds a
tuple, so `many(Flag("v"))` on the empty input succeeds with zero bindings
and `many1(Flag("v"))` on the empty input fails. -/
theorem many_total_for_consuming_witness :
    Consumes (Flag "v" none none true) ∧
    (∀ cs2 r, r ∈ (Flag "v" none none true).parse cs2 →
      (fun (_ : String × Bool) => true) r.1 = true) ∧
    ([] : List String).length < 1 ∧
    ((∃ x xs, manyF (fun _ => true) 1 (Flag "v" none none true) [] =
        MRes.toks (x :: xs)) ∧
      ((Flag "v" none none true).parse [] = [] →
        manyF (fun _ => true) 1 (Flag "v" none none true) [] =
          MRes.toks [([], [])]) ∧
      (many1F (fun _ => true) 1 (Flag "v" none none true) [] = MRes.toks [] ↔
        (Flag "v" none none true).parse [] = [])) :=
  ⟨flag_consumes "v" none none true, fun _ _ _ => rfl, by decide,
    many_total_for_consuming (fun _ => true) (Flag "v" none none true) 1 []
      (flag_consumes "v" none none true) (fun _ _ _ => rfl) (by decide)⟩

/-- C5 counterexample: `many` is not total for every parser.  For the
tuple-valued non-consuming parser `ret(("k", True))` the recursion behind
`many(...).parse([])` passes the isinstance assert and never completes,
whatever the fuel; and for the non-tuple-valued parser `ret(0)` the
`assert isinstance(a, tuple)` in `many1` fails immediately (before any
recursive call), so the parse raises `AssertionError` instead of
returning a success. -/
theorem many_not_total_counterexample :
    manyDiverges (fun _ => true) (Parser.ret (("k", true) : String × Bool)) [] ∧
    manyCrashes (fun _ => false) (Parser.ret (0 : Nat)) [] := by
  constructor
  · intro fuel
    induction fuel with
    | zero => rfl
    | succ fuel ih =>
      simp only [Parser.ret] at ih
      simp [manyF, manyGo, Parser.ret, Parser.parse, ih]
  · intro fuel hf
    cases fuel with
    | zero => exact absurd hf (Nat.lt_irrefl 0)
    | succ fuel => simp [manyF, manyGo, Parser.ret, Parser.parse]

/-- Modelled from the spec: the closed error taxonomy of spec section 7,
with the constructor shapes shown by the doctests of
`src/monad_argparse/parser/nonpositional.py` (`ArgumentError`,
`MissingError(missing=...)`, `UnequalError(left=..., right=...)`); the
defining module `monad_argparse/parser/error.py` is not under `src/`. -/
inductive ArgError where
  | argument (description : String)
  | missing (name : String)
  | unequal (left right : String)
deriving DecidableEq

/-- A binding of a key to a flag value, as produced by the new-style
`Flag`. -/
abbrev SBinding := String × Bool

/-- Modelled from the spec: the single-outcome parser of
`monad_argparse.parser.parser` (its module is not under `src/`): a pure
function from the token stream to a `Result` of bindings and remainder
(spec sections 3 and 4.1), reusing the `Result` type embedded from
`src/monad_argparse/parser/result.py`. -/
abbrev SParser := List String → Result ArgError (List SBinding × List String)

/-- Modelled from the spec: `ret` of spec 4.1, also the `Parser.empty()`
base case of `nonpositional` (spec 4.4): succeed with the given bindings,
consuming nothing. -/
def sret (xs : List SBinding) : SParser := fun cs => Result.ok (xs, cs)

/-- Modelled from the spec: `sequence(p, q)` of spec 4.1 is
`bind(p, x => bind(q, y => ret(concat(x, y))))`, written with the
`Result.bind` embedded from `src/monad_argparse/parser/result.py`. -/
def sseq (p q : SParser) : SParser := fun cs =>
  (p cs).bind fun r => (q r.2).bind fun r2 => Result.ok (r.1 ++ r2.1, r2.2)

/-- Modelled from the spec: `alternative(p, q)` of spec 4.1 runs both
parsers on the same stream and merges the two outcomes with the
`Result.__add__` rule of `src/monad_argparse/parser/result.py`. -/
def salt (p q : SParser) : SParser := fun cs => (p cs).add (q cs)

/-- The expected spelling of a new-style flag: a single dash plus the name
for single-character names, a double dash plus the name otherwise
(spec 4.3). -/
def flagSpelling (name : String) : String :=
  if name.length == 1 then "-" ++ name else "--" ++ name

/-- Modelled from the spec: the new-style `Flag(name)` of spec 4.3 (its
module `monad_argparse/parser/flag.py` is not under `src/`), with the
error shapes shown by the doctests of
`src/monad_argparse/parser/nonpositional.py`: succeed binding `true` only
on a literal match of the spelling; fail with `MissingError` on an empty
stream and with `UnequalError` on any other token. -/
def sFlag (name : String) : SParser := fun cs =>
  match cs with
  | [] => Result.err (ArgError.missing (flagSpelling name))
  | c :: rest =>
    if c = flagSpelling name then Result.ok ([(name, true)], rest)
    else Result.err (ArgError.unequal c (flagSpelling name))

/-- Modelled from the spec: the end-of-phase marker `Done()` of spec 4.4
(its module `monad_argparse/parser/done.py` is not under `src/`): succeed
with no bindings only when the stream is exhausted. -/
def sDone : SParser := fun cs =>
  match cs with
  | [] => Result.ok ([], [])
  | c :: _ => Result.err (ArgError.argument ("Unexpected argument: " ++ c))

/-- Translation of `nonpositional` from
`src/monad_argparse/parser/nonpositional.py`, fuel-indexed by the number
of parsers (each recursive call drops one parser): with no parsers,
`Parser.empty()`; otherwise `reduce` of `|` over the alternatives
`parsers[i] >> nonpositional(rest) >> Done()` for each index `i`. -/
def snonpositionalF : Nat → List SParser → SParser
  | _, [] => sret []
  | 0, _ :: _ => sret []
  | Nat.succ n, ps =>
    match (List.range ps.length).map (fun i =>
        sseq (sseq (ps.getD i (sret [])) (snonpositionalF n (ps.eraseIdx i))) sDone) with
    | [] => sret []
    | q :: qs => qs.foldl salt q

/-- The `nonpositional` entry point: the fuel is exactly the number of
parsers. -/
def snonpositional (ps : List SParser) : SParser :=
  snonpositionalF ps.length ps

/-- C7: `nonpositional(Flag("verbose"), Flag("debug"))` succeeds on both
orders of `["--debug", "--verbose"]`, with both bindings `true` and the
binding order matching the order the flags appeared in the input. -/
theorem nonpositional_permutation :
    snonpositional [sFlag "verbose", sFlag "debug"] ["--debug", "--verbose"] =
      Result.ok ([("debug", true), ("verbose", true)], []) ∧
    snonpositional [sFlag "verbose", sFlag "debug"] ["--verbose", "--debug"] =
      Result.ok ([("verbose", true), ("debug", true)], []) := by
  constructor <;> decide

end MonadArgparse
